import Mathlib

/-
Verification of the order transaction and notification subsystem.

The development shallowly embeds the repository's TypeScript sources:
  - db/repository.ts        (executeTransaction, executeQuery helpers)
  - services/order-service.ts (createOrder, updateOrderStatus, markOrderPaid,
                               fulfillOrder, cancelOrder)
  - services/notification-service.ts (sendPasswordReset, sendWelcomeEmail,
                               sendBulkNotifications)

Database state is a record of rows; every awaited statement that can reject in
the source is given an explicit failure flag (a schedule), and each modeled
operation additionally returns the ordered trace of events it performed, so
that temporal claims (what happens before COMMIT, whether ROLLBACK was issued,
whether the connection was released) are statable.  The external collaborators
that the spec scopes out (the delivery channel behind sendEmail and the user
directory behind fetchUserEmail) are abstracted as fallible parameters, exactly
the capability interface the spec assigns to them.
-/

namespace OrderSys

/-- Errors raised by modeled operations: database statement failures, delivery
failures from the abstract email channel, and the normalized notification
errors thrown by the notification service wrappers. -/
inductive Err where
  | dbErr : String → Err
  | deliveryErr : String → Err
  | notifyNormalized : String → Err
deriving DecidableEq

/-- Observable events of a run, in execution order.  `query`/`queryFail` carry
a tag naming the SQL statement; the transaction markers mirror the BEGIN,
COMMIT and ROLLBACK statements of executeTransaction; `releaseConn` is the
client.release() call in its finally block; the notify events mark the
dispatch attempt of a notification and its outcome. -/
inductive Event where
  | connect
  | beginTxn
  | query : String → Event
  | queryFail : String → Event
  | commitTxn
  | rollbackTxn
  | releaseConn
  | notifyAttempt
  | notifySent
  | notifyFail
deriving DecidableEq

/-- Order row, per the Order interface of order-service.ts plus the paid_at
column written by markOrderPaid. -/
structure Order where
  id : Nat
  user_id : Nat
  status : String
  total_amount : Int
  created_at : Nat
  updated_at : Nat
  paid_at : Option Nat
deriving DecidableEq

/-- OrderItem row, per the OrderItem interface of order-service.ts. -/
structure OrderItem where
  id : Nat
  order_id : Nat
  product_id : Nat
  quantity : Int
  price : Int
deriving DecidableEq

/-- One element of CreateOrderInput.items. -/
structure ItemInput where
  productId : Nat
  quantity : Int
  price : Int
deriving DecidableEq

/-- CreateOrderInput of order-service.ts. -/
structure CreateOrderInput where
  userId : Nat
  items : List ItemInput
deriving DecidableEq

/-- Committed database state: the two tables the core touches, the id
sequences backing the system-assigned primary keys, and the clock NOW()
reads from. -/
structure DB where
  orders : List Order
  orderItems : List OrderItem
  nextOrderId : Nat
  nextItemId : Nat
  now : Nat
deriving DecidableEq

/-- Result of running a modeled operation: its value or error, the committed
database afterwards, and the event trace. -/
structure RunResult (α : Type) where
  result : Except Err α
  db : DB
  events : List Event

/-- A unit of work as executeTransaction receives it: it runs against the
in-transaction view of the database and returns its value or error, the
(uncommitted) database state it produced, and its event trace. -/
def UnitOfWork (α : Type) : Type := DB → Except Err α × DB × List Event

/-- Failure schedule for the three transaction-control statements of
executeTransaction. -/
structure TxnSched where
  beginFails : Bool
  commitFails : Bool
  rollbackFails : Bool
deriving DecidableEq

/-- Shallow embedding of executeTransaction (db/repository.ts): acquire a
client, BEGIN, run the callback on that client, COMMIT on success or ROLLBACK
on failure rethrowing the original error, and release the client in a finally
block on every path.  Writes made by the callback become committed state only
when COMMIT succeeds; on every other path the committed database is unchanged
(the engine discards an uncommitted transaction). -/
def executeTransaction {α : Type} (s : TxnSched) (uow : UnitOfWork α) (db : DB) :
    RunResult α :=
  if s.beginFails then
    if s.rollbackFails then
      { result := .error (.dbErr "ROLLBACK"), db := db,
        events := [.connect, .queryFail "BEGIN", .queryFail "ROLLBACK", .releaseConn] }
    else
      { result := .error (.dbErr "BEGIN"), db := db,
        events := [.connect, .queryFail "BEGIN", .rollbackTxn, .releaseConn] }
  else
    match uow db with
    | (Except.error e, _, evs) =>
      if s.rollbackFails then
        { result := .error (.dbErr "ROLLBACK"), db := db,
          events := [.connect, .beginTxn] ++ evs ++ [.queryFail "ROLLBACK", .releaseConn] }
      else
        { result := .error e, db := db,
          events := [.connect, .beginTxn] ++ evs ++ [.rollbackTxn, .releaseConn] }
    | (Except.ok a, dbTxn, evs) =>
      if s.commitFails then
        if s.rollbackFails then
          { result := .error (.dbErr "ROLLBACK"), db := db,
            events := [.connect, .beginTxn] ++ evs ++
              [.queryFail "COMMIT", .queryFail "ROLLBACK", .releaseConn] }
        else
          { result := .error (.dbErr "COMMIT"), db := db,
            events := [.connect, .beginTxn] ++ evs ++
              [.queryFail "COMMIT", .rollbackTxn, .releaseConn] }
      else
        { result := .ok a, db := dbTxn,
          events := [.connect, .beginTxn] ++ evs ++ [.commitTxn, .releaseConn] }

/-- Failure schedule for one createOrder run: the transaction-control flags,
whether the INSERT into orders fails, the index of the first failing
order_items INSERT if any, and whether the sendOrderConfirmation call
rejects. -/
structure CreateSched where
  txn : TxnSched
  orderInsertFails : Bool
  itemFailAt : Option Nat
  notifyFails : Bool
deriving DecidableEq

/-- The item-insertion loop of createOrder: one INSERT into order_items per
input item, in order, on the transaction's connection; `failAt` names the
index whose INSERT rejects, aborting the loop there. -/
def insertItems (failAt : Option Nat) (items : List ItemInput) (oid : Nat)
    (db : DB) (idx : Nat) : Except Err Unit × DB × List Event :=
  match items with
  | [] => (.ok (), db, [])
  | it :: rest =>
    if failAt = some idx then
      (.error (.dbErr "INSERT order_items"), db, [.queryFail "INSERT order_items"])
    else
      let row : OrderItem :=
        { id := db.nextItemId, order_id := oid, product_id := it.productId,
          quantity := it.quantity, price := it.price }
      let db1 : DB :=
        { db with orderItems := db.orderItems ++ [row], nextItemId := db.nextItemId + 1 }
      let r := insertItems failAt rest oid db1 (idx + 1)
      (r.1, r.2.1, .query "INSERT order_items" :: r.2.2)

/-- The transaction callback of createOrder (order-service.ts): compute the
total by reduce, INSERT the orders row (status pending), loop INSERTing the
order_items rows, then — still inside the transaction, as the source has it —
try sendOrderConfirmation, catching and logging any rejection, and return the
order row. -/
def createOrderUoW (s : CreateSched) (input : CreateOrderInput) : UnitOfWork Order :=
  fun db =>
    let totalAmount := input.items.foldl (fun sum it => sum + it.price * it.quantity) 0
    if s.orderInsertFails then
      (.error (.dbErr "INSERT orders"), db, [.queryFail "INSERT orders"])
    else
      let order : Order :=
        { id := db.nextOrderId, user_id := input.userId, status := "pending",
          total_amount := totalAmount, created_at := db.now, updated_at := db.now,
          paid_at := none }
      let db1 : DB :=
        { db with orders := db.orders ++ [order], nextOrderId := db.nextOrderId + 1 }
      match insertItems s.itemFailAt input.items order.id db1 0 with
      | (Except.error e, db2, evs) =>
        (.error e, db2, .query "INSERT orders" :: evs)
      | (Except.ok _, db2, evs) =>
        if s.notifyFails then
          (.ok order, db2, .query "INSERT orders" :: evs ++ [.notifyAttempt, .notifyFail])
        else
          (.ok order, db2, .query "INSERT orders" :: evs ++ [.notifyAttempt, .notifySent])

/-- createOrder: its callback run through executeTransaction. -/
def createOrder (s : CreateSched) (input : CreateOrderInput) (db : DB) : RunResult Order :=
  executeTransaction s.txn (createOrderUoW s input) db

/-- getOrderById: SELECT by id, with result.rows[0] or null. -/
def getOrderById (orderId : Nat) (db : DB) : Option Order :=
  (db.orders.filter (fun o => o.id == orderId)).head?

/-- updateOrderStatus: UPDATE orders SET status, updated_at = NOW() WHERE id,
RETURNING *.  The function returns result.rows[0], which is absent when no row
matched; `qFails` is the statement's failure flag. -/
def updateOrderStatus (qFails : Bool) (orderId : Nat) (status : String) (db : DB) :
    RunResult (Option Order) :=
  if qFails then
    { result := .error (.dbErr "UPDATE orders"), db := db,
      events := [.queryFail "UPDATE orders"] }
  else
    let touch : Order → Order := fun o => { o with status := status, updated_at := db.now }
    { result := .ok ((db.orders.filter (fun o => o.id == orderId)).map touch).head?,
      db := { db with orders := db.orders.map (fun o => if o.id == orderId then touch o else o) },
      events := [.query "UPDATE orders"] }

/-- markOrderPaid: UPDATE orders SET status = paid, paid_at = NOW(),
updated_at = NOW() WHERE id, RETURNING *, returning result.rows[0]. -/
def markOrderPaid (qFails : Bool) (orderId : Nat) (db : DB) : RunResult (Option Order) :=
  if qFails then
    { result := .error (.dbErr "UPDATE orders"), db := db,
      events := [.queryFail "UPDATE orders"] }
  else
    let touch : Order → Order := fun o =>
      { o with status := "paid", paid_at := some db.now, updated_at := db.now }
    { result := .ok ((db.orders.filter (fun o => o.id == orderId)).map touch).head?,
      db := { db with orders := db.orders.map (fun o => if o.id == orderId then touch o else o) },
      events := [.query "UPDATE orders"] }

/-- fulfillOrder delegates to updateOrderStatus with status fulfilled and
returns its row. -/
def fulfillOrder (qFails : Bool) (orderId : Nat) (db : DB) : RunResult (Option Order) :=
  updateOrderStatus qFails orderId "fulfilled" db

/-- Failure schedule for one cancelOrder run: the two DELETE statements, the
SELECT behind the getOrderById lookup, and the sendOrderCancellation call. -/
structure CancelSched where
  deleteItemsFails : Bool
  deleteOrderFails : Bool
  lookupFails : Bool
  notifyFails : Bool
deriving DecidableEq

/-- Shallow embedding of cancelOrder (order-service.ts): DELETE the
order_items rows, then DELETE the orders row — both awaited outside any
try block, so either failure propagates — then, inside a try whose catch
swallows everything, getOrderById and, only if it returned a row, dispatch the
cancellation notification to that row's user id. -/
def cancelOrder (s : CancelSched) (orderId : Nat) (db : DB) : RunResult Unit :=
  if s.deleteItemsFails then
    { result := .error (.dbErr "DELETE order_items"), db := db,
      events := [.queryFail "DELETE order_items"] }
  else
    let db1 : DB := { db with orderItems := db.orderItems.filter (fun it => !(it.order_id == orderId)) }
    if s.deleteOrderFails then
      { result := .error (.dbErr "DELETE orders"), db := db1,
        events := [.query "DELETE order_items", .queryFail "DELETE orders"] }
    else
      let db2 : DB := { db1 with orders := db1.orders.filter (fun o => !(o.id == orderId)) }
      if s.lookupFails then
        { result := .ok (), db := db2,
          events := [.query "DELETE order_items", .query "DELETE orders",
                     .queryFail "SELECT orders"] }
      else
        match getOrderById orderId db2 with
        | none =>
          { result := .ok (), db := db2,
            events := [.query "DELETE order_items", .query "DELETE orders",
                       .query "SELECT orders"] }
        | some _ =>
          if s.notifyFails then
            { result := .ok (), db := db2,
              events := [.query "DELETE order_items", .query "DELETE orders",
                         .query "SELECT orders", .notifyAttempt, .notifyFail] }
          else
            { result := .ok (), db := db2,
              events := [.query "DELETE order_items", .query "DELETE orders",
                         .query "SELECT orders", .notifyAttempt, .notifySent] }

/-- EmailNotification record of notification-service.ts. -/
structure EmailMsg where
  toAddr : String
  subject : String
  body : String
  template : Option String
deriving DecidableEq

/-- The message sendPasswordReset builds for a given address and token. -/
def passwordResetMsg (email token : String) : EmailMsg :=
  { toAddr := email, subject := "Password Reset Request",
    body := "Use this token to reset your password: " ++ token,
    template := some "password-reset" }

/-- Shallow embedding of sendPasswordReset: try sendEmail on the built
message; the catch block logs and rethrows the original error unchanged.
`send` abstracts the delivery capability. -/
def sendPasswordReset (send : EmailMsg → Except Err Unit) (email token : String) :
    Except Err Unit :=
  match send (passwordResetMsg email token) with
  | .ok _ => .ok ()
  | .error e => .error e

/-- The message sendWelcomeEmail builds for a resolved address. -/
def welcomeMsg (addr : String) : EmailMsg :=
  { toAddr := addr, subject := "Welcome!", body := "Welcome to our platform!",
    template := some "welcome" }

/-- Shallow embedding of sendWelcomeEmail: fetchUserEmail then sendEmail, the
whole body inside a try whose catch logs and swallows.  `fetch` abstracts the
user-directory lookup, `send` the delivery capability. -/
def sendWelcomeEmail (fetch : Nat → Except Err String)
    (send : EmailMsg → Except Err Unit) (userId : Nat) : Except Err Unit :=
  match fetch userId with
  | .error _ => .ok ()
  | .ok addr =>
    match send (welcomeMsg addr) with
    | .error _ => .ok ()
    | .ok _ => .ok ()

/-- The per-recipient task sendBulkNotifications maps over userIds: resolve
the address, then send; either rejection settles that one promise as
rejected. -/
def perRecipient (fetch : Nat → Except Err String)
    (send : EmailMsg → Except Err Unit) (subject body : String) (userId : Nat) :
    Except Err Unit :=
  match fetch userId with
  | .error e => .error e
  | .ok addr => send { toAddr := addr, subject := subject, body := body, template := none }

/-- Settlement status of one per-recipient promise, as Promise.allSettled
reports it. -/
def isFulfilled : Except Err Unit → Bool
  | .ok _ => true
  | .error _ => false

/-- Shallow embedding of sendBulkNotifications: allSettled over the mapped
per-recipient tasks (allSettled never rejects, so the operation itself cannot
fail), then count fulfilled and rejected settlements; the returned pair is the
(successful, failed) report the function logs. -/
def sendBulkNotifications (fetch : Nat → Except Err String)
    (send : EmailMsg → Except Err Unit) (userIds : List Nat) (subject body : String) :
    Except Err (Nat × Nat) :=
  let results := userIds.map (perRecipient fetch send subject body)
  .ok ((results.filter (fun r => isFulfilled r)).length,
       (results.filter (fun r => !(isFulfilled r))).length)

/-- Spec-side description of the created order row (status Pending, total
amount Σ price×quantity over the items), written from the spec's words for the
refinement statement of order creation. -/
def specCreatedOrder (input : CreateOrderInput) (db : DB) : Order :=
  { id := db.nextOrderId, user_id := input.userId, status := "pending",
    total_amount := (input.items.map (fun it => it.price * it.quantity)).sum,
    created_at := db.now, updated_at := db.now, paid_at := none }

/-- Spec-side description of the item rows order creation appends: one row per
input item, in order, owned by `oid`, with ids drawn from the item sequence
starting at `nid`. -/
def specItemRows (items : List ItemInput) (oid : Nat) (nid : Nat) : List OrderItem :=
  match items with
  | [] => []
  | it :: rest =>
    { id := nid, order_id := oid, product_id := it.productId,
      quantity := it.quantity, price := it.price } :: specItemRows rest oid (nid + 1)

/-- Spec-side description of the database after a successful createOrder. -/
def specAfterCreate (input : CreateOrderInput) (db : DB) : DB :=
  { db with
    orders := db.orders ++ [specCreatedOrder input db],
    nextOrderId := db.nextOrderId + 1,
    orderItems := db.orderItems ++ specItemRows input.items db.nextOrderId db.nextItemId,
    nextItemId := db.nextItemId + input.items.length }

/-- A transaction schedule on which BEGIN, COMMIT and ROLLBACK all succeed. -/
def txnOK : TxnSched := { beginFails := false, commitFails := false, rollbackFails := false }

/-- A createOrder schedule on which every statement and the notification
succeed. -/
def csOK : CreateSched :=
  { txn := txnOK, orderInsertFails := false, itemFailAt := none, notifyFails := false }

/-- The concrete input of the spec's total-amount example: two items with
(price 10, quantity 2) and (price 5, quantity 3). -/
def inW : CreateOrderInput :=
  { userId := 7,
    items := [{ productId := 1, quantity := 2, price := 10 },
              { productId := 2, quantity := 3, price := 5 }] }

/-- An empty database. -/
def db0 : DB := { orders := [], orderItems := [], nextOrderId := 0, nextItemId := 0, now := 0 }

/-- A createOrder schedule on which every statement succeeds but COMMIT
rejects. -/
def csCommitFail : CreateSched :=
  { txn := { beginFails := false, commitFails := true, rollbackFails := false },
    orderInsertFails := false, itemFailAt := none, notifyFails := false }

/-- A createOrder schedule on which every statement succeeds and the
notification outcome is the given flag. -/
def csNotify (b : Bool) : CreateSched :=
  { txn := txnOK, orderInsertFails := false, itemFailAt := none, notifyFails := b }

/-- A cancelOrder schedule on which every statement and the notification
succeed. -/
def csCancelOK : CancelSched :=
  { deleteItemsFails := false, deleteOrderFails := false, lookupFails := false,
    notifyFails := false }

/-- A database holding one order (id 1, owned by user 7) with two items, as
left by a successful createOrder on the example input. -/
def dbCancel : DB :=
  { orders := [{ id := 1, user_id := 7, status := "pending", total_amount := 35,
                 created_at := 0, updated_at := 0, paid_at := none }],
    orderItems := [{ id := 0, order_id := 1, product_id := 1, quantity := 2, price := 10 },
                   { id := 1, order_id := 1, product_id := 2, quantity := 3, price := 5 }],
    nextOrderId := 2, nextItemId := 2, now := 5 }

/-- A concrete user directory whose address resolution fails exactly for
users 2 and 4. -/
def fetchW : Nat → Except Err String :=
  fun u =>
    if u == 2 || u == 4 then Except.error (Err.deliveryErr "no address")
    else Except.ok ("user" ++ toString u)

/-- A delivery channel on which every send succeeds. -/
def sendAllOk : EmailMsg → Except Err Unit := fun _ => Except.ok ()

theorem foldl_total_acc (items : List ItemInput) (acc : Int) :
    items.foldl (fun sum it => sum + it.price * it.quantity) acc =
      acc + (items.map (fun it => it.price * it.quantity)).sum := by
  induction items generalizing acc with
  | nil => simp
  | cons it rest ih => simp [ih, add_assoc]

theorem executeTransaction_uow_error {α : Type} (s : TxnSched) (uow : UnitOfWork α)
    (db db2 : DB) (e : Err) (evs : List Event)
    (hb : s.beginFails = false) (hr : s.rollbackFails = false)
    (h : uow db = (Except.error e, db2, evs)) :
    executeTransaction s uow db =
      { result := .error e, db := db,
        events := [.connect, .beginTxn] ++ evs ++ [.rollbackTxn, .releaseConn] } := by
  simp [executeTransaction, hb, hr, h]

theorem executeTransaction_uow_ok {α : Type} (s : TxnSched) (uow : UnitOfWork α)
    (db dbT : DB) (a : α) (evs : List Event)
    (hb : s.beginFails = false) (hc : s.commitFails = false)
    (h : uow db = (Except.ok a, dbT, evs)) :
    executeTransaction s uow db =
      { result := .ok a, db := dbT,
        events := [.connect, .beginTxn] ++ evs ++ [.commitTxn, .releaseConn] } := by
  simp [executeTransaction, hb, hc, h]

theorem insertItems_fail (i : Nat) (items : List ItemInput) (oid : Nat) (db : DB) (idx : Nat)
    (h1 : idx ≤ i) (h2 : i < idx + items.length) :
    (insertItems (some i) items oid db idx).1 =
      Except.error (Err.dbErr "INSERT order_items") := by
  induction items generalizing db idx with
  | nil => simp at h2; omega
  | cons it rest ih =>
    by_cases hEq : i = idx
    · subst hEq
      simp [insertItems]
    · have hne : ¬ (some i = some idx) := by
        intro hc
        exact hEq (Option.some.inj hc)
      simp only [insertItems, if_neg hne]
      exact ih _ (idx + 1) (by omega) (by simp at h2 ⊢; omega)

theorem insertItems_none (items : List ItemInput) (oid : Nat) (db : DB) (idx : Nat) :
    insertItems none items oid db idx =
      (Except.ok (),
       { db with orderItems := db.orderItems ++ specItemRows items oid db.nextItemId,
                 nextItemId := db.nextItemId + items.length },
       List.replicate items.length (Event.query "INSERT order_items")) := by
  induction items generalizing db idx with
  | nil => simp [insertItems, specItemRows]
  | cons it rest ih =>
    simp only [insertItems, specItemRows, ih]
    simp [List.append_assoc]
    exact ⟨by omega, (List.replicate_succ _ _).symm⟩

theorem createOrderUoW_ok (s : CreateSched) (input : CreateOrderInput) (db : DB)
    (ho : s.orderInsertFails = false) (hi : s.itemFailAt = none) :
    createOrderUoW s input db =
      (Except.ok (specCreatedOrder input db), specAfterCreate input db,
       Event.query "INSERT orders" ::
         (List.replicate input.items.length (Event.query "INSERT order_items") ++
          (if s.notifyFails then [Event.notifyAttempt, Event.notifyFail]
           else [Event.notifyAttempt, Event.notifySent]))) := by
  simp only [createOrderUoW, ho, hi, Bool.false_eq_true, if_false, insertItems_none,
    foldl_total_acc]
  cases hn : s.notifyFails <;>
    simp [specCreatedOrder, specAfterCreate, foldl_total_acc]

theorem insertItems_fail_ex (i : Nat) (items : List ItemInput) (oid : Nat) (db : DB) (idx : Nat)
    (h1 : idx ≤ i) (h2 : i < idx + items.length) :
    ∃ d evs, insertItems (some i) items oid db idx =
      (Except.error (Err.dbErr "INSERT order_items"), d, evs) := by
  rcases hr : insertItems (some i) items oid db idx with ⟨r, d, evs⟩
  have hfst := insertItems_fail i items oid db idx h1 h2
  rw [hr] at hfst
  have hr2 : r = Except.error (Err.dbErr "INSERT order_items") := hfst
  exact ⟨d, evs, by rw [hr2]⟩

theorem createOrderUoW_item_fail (s : CreateSched) (input : CreateOrderInput) (db : DB)
    (i : Nat) (ho : s.orderInsertFails = false) (hi : s.itemFailAt = some i)
    (hlen : i < input.items.length) :
    ∃ d evs, createOrderUoW s input db =
      (Except.error (Err.dbErr "INSERT order_items"), d, evs) := by
  obtain ⟨d, evs, hIns⟩ := insertItems_fail_ex i input.items db.nextOrderId
    { db with
      orders := db.orders ++
        [{ id := db.nextOrderId, user_id := input.userId, status := "pending",
           total_amount := input.items.foldl (fun sum it => sum + it.price * it.quantity) 0,
           created_at := db.now, updated_at := db.now, paid_at := none }],
      nextOrderId := db.nextOrderId + 1 }
    0 (Nat.zero_le i) (by omega)
  refine ⟨d, Event.query "INSERT orders" :: evs, ?_⟩
  simp only [createOrderUoW, ho, hi, Bool.false_eq_true, if_false]
  rw [hIns]

/-- C1: any failing unit of work run through executeTransaction triggers a
ROLLBACK, has the original failure re-raised, and leaves the committed
database unchanged (assuming BEGIN ran and the ROLLBACK statement itself does
not also fail); in particular a createOrder run whose order_items INSERT
rejects after the orders INSERT succeeded re-raises that failure and persists
neither the Order row nor any OrderItem row. -/
theorem createOrder_rollback_on_failure :
    (∀ (α : Type) (s : TxnSched) (uow : UnitOfWork α) (db db2 : DB) (e : Err)
        (evs : List Event),
        s.beginFails = false → s.rollbackFails = false →
        uow db = (Except.error e, db2, evs) →
        (executeTransaction s uow db).result = Except.error e ∧
        Event.rollbackTxn ∈ (executeTransaction s uow db).events ∧
        (executeTransaction s uow db).db = db) ∧
    (∀ (s : CreateSched) (input : CreateOrderInput) (db : DB) (i : Nat),
        s.txn.beginFails = false → s.txn.rollbackFails = false →
        s.orderInsertFails = false → s.itemFailAt = some i →
        i < input.items.length →
        (createOrder s input db).result = Except.error (Err.dbErr "INSERT order_items") ∧
        Event.rollbackTxn ∈ (createOrder s input db).events ∧
        (createOrder s input db).db = db) := by
  constructor
  · intro α s uow db db2 e evs hb hr h
    rw [executeTransaction_uow_error s uow db db2 e evs hb hr h]
    refine ⟨rfl, ?_, rfl⟩
    simp
  · intro s input db i hb hr ho hi hlen
    obtain ⟨d, evs, hUoW⟩ := createOrderUoW_item_fail s input db i ho hi hlen
    rw [createOrder, executeTransaction_uow_error s.txn _ db d _ evs hb hr hUoW]
    refine ⟨rfl, ?_, rfl⟩
    simp

/-- Witness for C1 at a concrete failing run: the second item INSERT of the
example input rejects, the failure is re-raised, ROLLBACK appears in the
trace, and the empty database is unchanged. -/
theorem createOrder_rollback_on_failure_witness :
    (createOrder { txn := txnOK, orderInsertFails := false, itemFailAt := some 1,
                   notifyFails := false } inW db0).result =
      Except.error (Err.dbErr "INSERT order_items") ∧
    Event.rollbackTxn ∈
      (createOrder { txn := txnOK, orderInsertFails := false, itemFailAt := some 1,
                     notifyFails := false } inW db0).events ∧
    (createOrder { txn := txnOK, orderInsertFails := false, itemFailAt := some 1,
                   notifyFails := false } inW db0).db = db0 :=
  createOrder_rollback_on_failure.2
    { txn := txnOK, orderInsertFails := false, itemFailAt := some 1, notifyFails := false }
    inW db0 1 rfl rfl rfl rfl (by decide)

theorem executeTransaction_events_split {α : Type} (s : TxnSched) (uow : UnitOfWork α)
    (db : DB) :
    ∃ pre, (executeTransaction s uow db).events = pre ++ [Event.releaseConn] ∧
      (Event.releaseConn ∉ (uow db).2.2 → Event.releaseConn ∉ pre) := by
  rcases s with ⟨b, c, rb⟩
  rcases hu : uow db with ⟨r, dEnd, evs⟩
  cases b with
  | true =>
    cases rb with
    | true =>
      refine ⟨[Event.connect, Event.queryFail "BEGIN", Event.queryFail "ROLLBACK"],
        by simp [executeTransaction], ?_⟩
      intro _
      simp
    | false =>
      refine ⟨[Event.connect, Event.queryFail "BEGIN", Event.rollbackTxn],
        by simp [executeTransaction], ?_⟩
      intro _
      simp
  | false =>
    cases r with
    | error e =>
      cases rb with
      | true =>
        refine ⟨[Event.connect, Event.beginTxn] ++ evs ++ [Event.queryFail "ROLLBACK"],
          by simp [executeTransaction, hu], ?_⟩
        intro h
        have h2 : Event.releaseConn ∉ evs := h
        simp [List.mem_append, h2]
      | false =>
        refine ⟨[Event.connect, Event.beginTxn] ++ evs ++ [Event.rollbackTxn],
          by simp [executeTransaction, hu], ?_⟩
        intro h
        have h2 : Event.releaseConn ∉ evs := h
        simp [List.mem_append, h2]
    | ok a =>
      cases c with
      | true =>
        cases rb with
        | true =>
          refine ⟨[Event.connect, Event.beginTxn] ++ evs ++
              [Event.queryFail "COMMIT", Event.queryFail "ROLLBACK"],
            by simp [executeTransaction, hu], ?_⟩
          intro h
          have h2 : Event.releaseConn ∉ evs := h
          simp [List.mem_append, h2]
        | false =>
          refine ⟨[Event.connect, Event.beginTxn] ++ evs ++
              [Event.queryFail "COMMIT", Event.rollbackTxn],
            by simp [executeTransaction, hu], ?_⟩
          intro h
          have h2 : Event.releaseConn ∉ evs := h
          simp [List.mem_append, h2]
      | false =>
        refine ⟨[Event.connect, Event.beginTxn] ++ evs ++ [Event.commitTxn],
          by simp [executeTransaction, hu], ?_⟩
        intro h
        have h2 : Event.releaseConn ∉ evs := h
        simp [List.mem_append, h2]

/-- C2: on every schedule — including failing BEGIN, COMMIT or ROLLBACK
statements — the trace of executeTransaction ends with the connection
release; and when the unit of work performs no release of its own, that
final release is the only one in the trace. -/
theorem executeTransaction_always_releases :
    (∀ (α : Type) (s : TxnSched) (uow : UnitOfWork α) (db : DB),
      ∃ pre, (executeTransaction s uow db).events = pre ++ [Event.releaseConn]) ∧
    (∀ (α : Type) (s : TxnSched) (uow : UnitOfWork α) (db : DB),
      Event.releaseConn ∉ (uow db).2.2 →
      ∃ pre, (executeTransaction s uow db).events = pre ++ [Event.releaseConn] ∧
        Event.releaseConn ∉ pre) := by
  constructor
  · intro α s uow db
    obtain ⟨pre, hpre, _⟩ := executeTransaction_events_split s uow db
    exact ⟨pre, hpre⟩
  · intro α s uow db h
    obtain ⟨pre, hpre, hno⟩ := executeTransaction_events_split s uow db
    exact ⟨pre, hpre, hno h⟩

/-- Witness for C2 at a concrete run: a COMMIT-fails schedule over the
createOrder unit of work, which performs no release of its own. -/
theorem executeTransaction_always_releases_witness :
    (∃ pre,
      (executeTransaction { beginFails := false, commitFails := true, rollbackFails := false }
        (createOrderUoW csOK inW) db0).events = pre ++ [Event.releaseConn]) ∧
    (∃ pre,
      (executeTransaction { beginFails := false, commitFails := true, rollbackFails := false }
        (createOrderUoW csOK inW) db0).events = pre ++ [Event.releaseConn] ∧
        Event.releaseConn ∉ pre) :=
  ⟨executeTransaction_always_releases.1 Order
      { beginFails := false, commitFails := true, rollbackFails := false }
      (createOrderUoW csOK inW) db0,
   executeTransaction_always_releases.2 Order
      { beginFails := false, commitFails := true, rollbackFails := false }
      (createOrderUoW csOK inW) db0 (by decide)⟩

/-- C3: when the inserts and the transaction statements succeed, a rejected
order-confirmation dispatch is caught: createOrder still succeeds, returns the
created Order, commits the same database state as a run whose notification
succeeded, and issues no ROLLBACK. -/
theorem createOrder_notify_failure_isolated :
    ∀ (input : CreateOrderInput) (db : DB),
      (createOrder (csNotify true) input db).result =
        Except.ok (specCreatedOrder input db) ∧
      (createOrder (csNotify true) input db).db = specAfterCreate input db ∧
      (createOrder (csNotify true) input db).result =
        (createOrder (csNotify false) input db).result ∧
      (createOrder (csNotify true) input db).db =
        (createOrder (csNotify false) input db).db ∧
      Event.rollbackTxn ∉ (createOrder (csNotify true) input db).events := by
  intro input db
  have h1 := createOrderUoW_ok (csNotify true) input db rfl rfl
  have h0 := createOrderUoW_ok (csNotify false) input db rfl rfl
  have e1 := executeTransaction_uow_ok (csNotify true).txn (createOrderUoW (csNotify true) input)
    db (specAfterCreate input db) (specCreatedOrder input db) _ rfl rfl h1
  have e0 := executeTransaction_uow_ok (csNotify false).txn (createOrderUoW (csNotify false) input)
    db (specAfterCreate input db) (specCreatedOrder input db) _ rfl rfl h0
  simp only [createOrder]
  rw [e1, e0]
  refine ⟨rfl, rfl, rfl, rfl, ?_⟩
  simp [csNotify, List.mem_append, List.mem_replicate]

/-- C4 is refuted by the code: in createOrder the confirmation dispatch runs
inside the transaction callback, before COMMIT — the trace of a fully
successful run places the dispatch attempt strictly between the item inserts
and the COMMIT; moreover, on a run whose COMMIT then rejects, the
confirmation was already sent even though the order never persisted. -/
theorem createOrder_dispatch_inside_transaction :
    (createOrder csOK inW db0).events =
      [Event.connect, Event.beginTxn, Event.query "INSERT orders",
       Event.query "INSERT order_items", Event.query "INSERT order_items",
       Event.notifyAttempt, Event.notifySent, Event.commitTxn, Event.releaseConn] ∧
    Event.notifySent ∈ (createOrder csCommitFail inW db0).events ∧
    (createOrder csCommitFail inW db0).result = Except.error (Err.dbErr "COMMIT") ∧
    (createOrder csCommitFail inW db0).db = db0 := by
  refine ⟨rfl, by decide, rfl, rfl⟩

theorem filter_not_filter_head {α : Type} (p : α → Bool) (l : List α) :
    ((l.filter (fun a => !(p a))).filter p).head? = none := by
  induction l with
  | nil => rfl
  | cons a l ih =>
    by_cases h : p a <;> simp [List.filter_cons, h, ih]

theorem specItemRows_fields (items : List ItemInput) (oid nid : Nat) :
    (specItemRows items oid nid).map
        (fun r => (r.order_id, r.product_id, r.quantity, r.price)) =
      items.map (fun it => (oid, it.productId, it.quantity, it.price)) := by
  induction items generalizing nid with
  | nil => rfl
  | cons it rest ih => simp [specItemRows, ih]

/-- C5 is contradicted by the code: when cancelOrder's two DELETEs and the
lookup succeed, the OrderItem rows and the Order row are indeed removed, but
the order lookup that guards the cancellation dispatch runs on the state in
which the Order row is already gone, so it returns absent and the dispatch
never happens — no dispatch attempt ever appears in the trace. -/
theorem cancelOrder_never_dispatches :
    ∀ (s : CancelSched) (orderId : Nat) (db : DB),
      s.deleteItemsFails = false → s.deleteOrderFails = false → s.lookupFails = false →
      (cancelOrder s orderId db).result = Except.ok () ∧
      (cancelOrder s orderId db).db.orderItems =
        db.orderItems.filter (fun it => !(it.order_id == orderId)) ∧
      (cancelOrder s orderId db).db.orders =
        db.orders.filter (fun o => !(o.id == orderId)) ∧
      Event.notifyAttempt ∉ (cancelOrder s orderId db).events := by
  intro s orderId db h1 h2 h3
  simp only [cancelOrder, h1, h2, h3, Bool.false_eq_true, if_false, getOrderById]
  rw [filter_not_filter_head]
  exact ⟨rfl, rfl, rfl, by simp⟩

/-- Witness for C5 at the concrete database holding order 1 with two items:
the rows are removed and the trace holds no dispatch attempt. -/
theorem cancelOrder_never_dispatches_witness :
    (cancelOrder csCancelOK 1 dbCancel).result = Except.ok () ∧
    (cancelOrder csCancelOK 1 dbCancel).db.orderItems =
      dbCancel.orderItems.filter (fun it => !(it.order_id == 1)) ∧
    (cancelOrder csCancelOK 1 dbCancel).db.orders =
      dbCancel.orders.filter (fun o => !(o.id == 1)) ∧
    Event.notifyAttempt ∉ (cancelOrder csCancelOK 1 dbCancel).events :=
  cancelOrder_never_dispatches csCancelOK 1 dbCancel rfl rfl rfl

/-- C6 as stated is false at a concrete input: over the database holding
order 1, a run whose order_items DELETE rejects makes cancelOrder itself
fail with that database error instead of swallowing it. -/
theorem cancelOrder_propagates_delete_error_cex :
    (cancelOrder { deleteItemsFails := true, deleteOrderFails := false,
                   lookupFails := false, notifyFails := false } 1 dbCancel).result =
      Except.error (Err.dbErr "DELETE order_items") := rfl

/-- C6 amended: cancelOrder swallows every error of its lookup-and-notify
phase — whenever the two DELETE statements succeed it returns successfully,
whatever the lookup and send outcomes — but an error raised by either DELETE
statement propagates to the caller. -/
theorem cancelOrder_swallow_policy :
    (∀ (s : CancelSched) (orderId : Nat) (db : DB),
        s.deleteItemsFails = false → s.deleteOrderFails = false →
        (cancelOrder s orderId db).result = Except.ok ()) ∧
    (∀ (s : CancelSched) (orderId : Nat) (db : DB),
        s.deleteItemsFails = true →
        (cancelOrder s orderId db).result = Except.error (Err.dbErr "DELETE order_items")) ∧
    (∀ (s : CancelSched) (orderId : Nat) (db : DB),
        s.deleteItemsFails = false → s.deleteOrderFails = true →
        (cancelOrder s orderId db).result = Except.error (Err.dbErr "DELETE orders")) := by
  refine ⟨?_, ?_, ?_⟩
  · intro s orderId db h1 h2
    simp only [cancelOrder, h1, h2, Bool.false_eq_true, if_false]
    split
    · rfl
    · split
      · rfl
      · split <;> rfl
  · intro s orderId db h1
    simp only [cancelOrder, h1, if_true]
  · intro s orderId db h1 h2
    simp only [cancelOrder, h1, h2, Bool.false_eq_true, if_false, if_true]

/-- Witness for the amended C6: the three policies at concrete runs over the
database holding order 1. -/
theorem cancelOrder_swallow_policy_witness :
    (cancelOrder { csCancelOK with notifyFails := true } 1 dbCancel).result =
      Except.ok () ∧
    (cancelOrder { csCancelOK with deleteItemsFails := true } 1 dbCancel).result =
      Except.error (Err.dbErr "DELETE order_items") ∧
    (cancelOrder { csCancelOK with deleteOrderFails := true } 1 dbCancel).result =
      Except.error (Err.dbErr "DELETE orders") :=
  ⟨cancelOrder_swallow_policy.1 _ 1 dbCancel rfl rfl,
   cancelOrder_swallow_policy.2.1 _ 1 dbCancel rfl,
   cancelOrder_swallow_policy.2.2 _ 1 dbCancel rfl rfl⟩

/-- C7: with all statements succeeding, createOrder computes the total as
Σ price×quantity over the items, returns the Order row carrying status
pending and that total, and commits that row plus one OrderItem row per
input item in order, each carrying the order's id and the item's product,
quantity and price; on the spec's example items the stored total is 35. -/
theorem createOrder_total_and_rows :
    (∀ (input : CreateOrderInput) (db : DB),
      (createOrder csOK input db).result = Except.ok (specCreatedOrder input db) ∧
      (specCreatedOrder input db).total_amount =
        (input.items.map (fun it => it.price * it.quantity)).sum ∧
      (specCreatedOrder input db).status = "pending" ∧
      (createOrder csOK input db).db = specAfterCreate input db ∧
      (specAfterCreate input db).orderItems =
        db.orderItems ++ specItemRows input.items db.nextOrderId db.nextItemId ∧
      (specItemRows input.items db.nextOrderId db.nextItemId).map
          (fun r => (r.order_id, r.product_id, r.quantity, r.price)) =
        input.items.map (fun it => (db.nextOrderId, it.productId, it.quantity, it.price))) ∧
    (createOrder csOK inW db0).result =
      Except.ok { id := 0, user_id := 7, status := "pending", total_amount := 35,
                  created_at := 0, updated_at := 0, paid_at := none } := by
  constructor
  · intro input db
    have h := createOrderUoW_ok csOK input db rfl rfl
    have e := executeTransaction_uow_ok csOK.txn (createOrderUoW csOK input) db
      (specAfterCreate input db) (specCreatedOrder input db) _ rfl rfl h
    simp only [createOrder]
    rw [e]
    exact ⟨rfl, rfl, rfl, rfl, rfl, specItemRows_fields input.items db.nextOrderId db.nextItemId⟩
  · rfl

theorem length_filter_add_length_filter_not {α : Type} (p : α → Bool) (l : List α) :
    (l.filter p).length + (l.filter (fun a => !(p a))).length = l.length := by
  induction l with
  | nil => rfl
  | cons a l ih => cases h : p a <;> simp [List.filter_cons, h] <;> omega

/-- C8: sendPasswordReset re-raises a delivery failure unchanged to its
caller, while sendWelcomeEmail returns successfully whatever the lookup and
send outcomes are. -/
theorem passwordReset_propagates_welcome_swallows :
    (∀ (send : EmailMsg → Except Err Unit) (email token : String) (e : Err),
        send (passwordResetMsg email token) = Except.error e →
        sendPasswordReset send email token = Except.error e) ∧
    (∀ (fetch : Nat → Except Err String) (send : EmailMsg → Except Err Unit)
        (userId : Nat),
        sendWelcomeEmail fetch send userId = Except.ok ()) := by
  constructor
  · intro send email token e h
    simp [sendPasswordReset, h]
  · intro fetch send userId
    simp only [sendWelcomeEmail]
    cases hf : fetch userId with
    | error e => rfl
    | ok addr => cases hs : send (welcomeMsg addr) <;> simp [hs]

/-- Witness for C8: a channel that always rejects makes sendPasswordReset
fail with that very error, while sendWelcomeEmail under a failing lookup
still succeeds. -/
theorem passwordReset_propagates_welcome_swallows_witness :
    sendPasswordReset (fun _ => Except.error (Err.deliveryErr "smtp down")) "a@b.c" "tok" =
      Except.error (Err.deliveryErr "smtp down") ∧
    sendWelcomeEmail (fun _ => Except.error (Err.deliveryErr "lookup down"))
      sendAllOk 7 = Except.ok () :=
  ⟨passwordReset_propagates_welcome_swallows.1 _ "a@b.c" "tok" _ rfl,
   passwordReset_propagates_welcome_swallows.2 _ sendAllOk 7⟩

/-- C9: sendBulkNotifications always returns a report and never an error, the
reported success and failure counts sum to the number of recipients, the i-th
settled outcome is exactly the lookup-and-send outcome of the i-th recipient,
that outcome depends only on the oracles' behavior at that recipient, and on
the concrete run over recipients 1..5 where address resolution fails for
users 2 and 4 the report is successful 3, failed 2. -/
theorem sendBulk_counts_and_isolation :
    (∀ (fetch : Nat → Except Err String) (send : EmailMsg → Except Err Unit)
        (userIds : List Nat) (subject body : String),
        ∃ succ failed,
          sendBulkNotifications fetch send userIds subject body =
            Except.ok (succ, failed) ∧ succ + failed = userIds.length) ∧
    (∀ (fetch : Nat → Except Err String) (send : EmailMsg → Except Err Unit)
        (subject body : String) (userIds : List Nat) (i : Nat),
        (userIds.map (perRecipient fetch send subject body))[i]? =
          (userIds[i]?).map (perRecipient fetch send subject body)) ∧
    (∀ (fetch fetch2 : Nat → Except Err String)
        (send send2 : EmailMsg → Except Err Unit) (subject body : String) (u : Nat),
        fetch u = fetch2 u →
        (∀ addr, fetch u = Except.ok addr →
          send { toAddr := addr, subject := subject, body := body, template := none } =
            send2 { toAddr := addr, subject := subject, body := body, template := none }) →
        perRecipient fetch send subject body u =
          perRecipient fetch2 send2 subject body u) ∧
    sendBulkNotifications fetchW sendAllOk [1, 2, 3, 4, 5] "subj" "hello" =
      Except.ok (3, 2) := by
  refine ⟨?_, ?_, ?_, ?_⟩
  · intro fetch send userIds subject body
    refine ⟨_, _, rfl, ?_⟩
    rw [length_filter_add_length_filter_not]
    simp
  · intro fetch send subject body userIds i
    simp
  · intro fetch fetch2 send send2 subject body u h1 h2
    simp only [perRecipient]
    cases hf : fetch u with
    | error e => rw [← h1, hf]
    | ok addr =>
      rw [← h1, hf]
      exact h2 addr hf
  · rfl

/-- Witness for C9: the count identity at the concrete bulk run, and
per-recipient independence for recipient 3 across two channels that agree on
it. -/
theorem sendBulk_counts_and_isolation_witness :
    (∃ succ failed,
        sendBulkNotifications fetchW sendAllOk [1, 2, 3, 4, 5] "subj" "hello" =
          Except.ok (succ, failed) ∧ succ + failed = 5) ∧
    perRecipient fetchW sendAllOk "subj" "hello" 3 =
      perRecipient fetchW (fun _ => Except.ok ()) "subj" "hello" 3 :=
  ⟨sendBulk_counts_and_isolation.1 fetchW sendAllOk [1, 2, 3, 4, 5] "subj" "hello",
   sendBulk_counts_and_isolation.2.2.1 fetchW fetchW sendAllOk (fun _ => Except.ok ())
     "subj" "hello" 3 rfl (fun _ _ => rfl)⟩

/-- C10: on an order id with no matching row, updateOrderStatus,
markOrderPaid and fulfillOrder raise no error and return the absent value —
the head of an empty result set — instead of an Order. -/
theorem statusUpdates_absent_return_none :
    ∀ (db : DB) (orderId : Nat) (status : String),
      (∀ o ∈ db.orders, o.id ≠ orderId) →
      (updateOrderStatus false orderId status db).result = Except.ok none ∧
      (markOrderPaid false orderId db).result = Except.ok none ∧
      (fulfillOrder false orderId db).result = Except.ok none := by
  intro db orderId status h
  have hfil : db.orders.filter (fun o => o.id == orderId) = [] := by
    apply List.filter_eq_nil_iff.mpr
    intro o ho
    simp [h o ho]
  refine ⟨?_, ?_, ?_⟩ <;>
    simp [updateOrderStatus, markOrderPaid, fulfillOrder, hfil]

/-- Witness for C10: id 9 matches no row of the concrete database, and all
three operations return the absent value without error. -/
theorem statusUpdates_absent_return_none_witness :
    (updateOrderStatus false 9 "paid" dbCancel).result = Except.ok none ∧
    (markOrderPaid false 9 dbCancel).result = Except.ok none ∧
    (fulfillOrder false 9 dbCancel).result = Except.ok none :=
  statusUpdates_absent_return_none dbCancel 9 "paid" (by decide)

end OrderSys
